import Mathlib

/-!
Verification development for the movie-industry analytics visualization bundle.
The repository's executable source is three React chart components over literal
datasets; this file embeds those datasets and the pure render-time computations
(helper functions, array spreads, maps, color selection) as Lean definitions
and proves the specified properties about them. Decimal literals from the
source are embedded as exact rationals.
-/

namespace MovieViz

/-- A yearly genre-popularity record from genre-visualization.jsx; the five
genre fields are numeric scores. -/
structure GenreRecord where
  year : ℕ
  horror : ℚ
  scifi : ℚ
  action : ℚ
  drama : ℚ
  comedy : ℚ
  deriving DecidableEq

/-- The literal dataset of GenreVisualization (named `data` in the source). -/
def genreData : List GenreRecord := [
  ⟨2015, 60.2, 72.6, 93.9, 71.8, 68.4⟩,
  ⟨2016, 68.7, 75.2, 95.3, 70.9, 67.9⟩,
  ⟨2017, 59.3, 79.4, 94.0, 69.6, 68.1⟩,
  ⟨2018, 71.2, 83.1, 90.8, 68.7, 67.4⟩,
  ⟨2019, 63.8, 84.8, 92.7, 68.3, 68.6⟩,
  ⟨2020, 69.5, 87.4, 88.9, 67.2, 67.8⟩,
  ⟨2021, 58.9, 90.6, 91.3, 66.8, 68.3⟩,
  ⟨2022, 70.6, 92.7, 93.5, 65.9, 67.7⟩,
  ⟨2023, 62.4, 95.3, 94.8, 64.7, 68.2⟩,
  ⟨2024, 68.1, 98.6, 96.2, 63.9, 67.5⟩]

/-- A budget/revenue sample point from budget-efficiency.jsx. -/
structure BudgetPoint where
  budget : ℚ
  revenue : ℚ
  efficiency : ℚ
  genre : String
  deriving DecidableEq

def horrorData : List BudgetPoint := [
  ⟨5.6, 19.3, 3.45, "Horror"⟩,
  ⟨8.2, 29.1, 3.55, "Horror"⟩,
  ⟨12.4, 52.1, 4.20, "Horror"⟩,
  ⟨7.3, 17.5, 2.40, "Horror"⟩,
  ⟨10.1, 35.3, 3.49, "Horror"⟩,
  ⟨4.8, 19.2, 4.00, "Horror"⟩,
  ⟨18.5, 45.3, 2.45, "Horror"⟩,
  ⟨9.7, 28.2, 2.91, "Horror"⟩,
  ⟨14.3, 42.9, 3.00, "Horror"⟩,
  ⟨6.5, 22.8, 3.51, "Horror"⟩]

def scifiData : List BudgetPoint := [
  ⟨120.5, 187.9, 1.56, "Science Fiction"⟩,
  ⟨155.3, 210.2, 1.35, "Science Fiction"⟩,
  ⟨183.7, 312.3, 1.70, "Science Fiction"⟩,
  ⟨92.8, 139.2, 1.50, "Science Fiction"⟩,
  ⟨146.2, 255.9, 1.75, "Science Fiction"⟩,
  ⟨175.4, 245.6, 1.40, "Science Fiction"⟩,
  ⟨87.5, 131.2, 1.50, "Science Fiction"⟩,
  ⟨134.8, 242.6, 1.80, "Science Fiction"⟩,
  ⟨167.2, 317.7, 1.90, "Science Fiction"⟩,
  ⟨105.1, 147.1, 1.40, "Science Fiction"⟩]

def actionData : List BudgetPoint := [
  ⟨85.3, 195.3, 2.29, "Action"⟩,
  ⟨112.7, 293.0, 2.60, "Action"⟩,
  ⟨127.4, 280.3, 2.20, "Action"⟩,
  ⟨94.6, 264.9, 2.80, "Action"⟩,
  ⟨143.8, 359.5, 2.50, "Action"⟩,
  ⟨76.3, 183.1, 2.40, "Action"⟩,
  ⟨105.9, 212.9, 2.01, "Action"⟩,
  ⟨135.6, 326.8, 2.41, "Action"⟩,
  ⟨88.7, 230.6, 2.60, "Action"⟩,
  ⟨118.3, 295.8, 2.50, "Action"⟩]

def dramaData : List BudgetPoint := [
  ⟨35.6, 64.1, 1.80, "Drama"⟩,
  ⟨28.3, 59.4, 2.10, "Drama"⟩,
  ⟨42.7, 72.6, 1.70, "Drama"⟩,
  ⟨15.4, 32.3, 2.10, "Drama"⟩,
  ⟨24.8, 49.6, 2.00, "Drama"⟩,
  ⟨38.5, 65.5, 1.70, "Drama"⟩,
  ⟨19.6, 35.3, 1.80, "Drama"⟩,
  ⟨52.3, 99.4, 1.90, "Drama"⟩,
  ⟨33.7, 60.7, 1.80, "Drama"⟩,
  ⟨47.1, 85.2, 1.81, "Drama"⟩]

/-- `const combinedData = [...horrorData, ...scifiData, ...actionData, ...dramaData]`:
the JS spread builds a fresh array from the four bucket arrays. -/
def combinedData : List BudgetPoint := horrorData ++ scifiData ++ actionData ++ dramaData

/-- The hardcoded `genreStats` object lookup, returning `none` for a key
absent from the object (JS would yield `undefined`). -/
def genreStats (g : String) : Option ℚ :=
  if g = "Horror" then some 3.29
  else if g = "Science Fiction" then some 1.60
  else if g = "Action" then some 2.46
  else if g = "Drama" then some 1.87
  else none

/-- A studio metrics record from the StudioPerformance component. -/
structure StudioRecord where
  studio : String
  riskAdjustedReturn : ℚ
  profitRatio : ℚ
  risk : ℚ
  genreDiversity : ℚ
  deriving DecidableEq

/-- The literal dataset of StudioPerformance (named `data` in the source). -/
def studioData : List StudioRecord := [
  ⟨"Paramount", 8.31, 3.82, 0.46, 0.91⟩,
  ⟨"Universal Pictures", 7.37, 2.04, 0.28, 0.81⟩,
  ⟨"Walt Disney Pictures", 6.22, 3.41, 0.55, 0.57⟩,
  ⟨"A24", 5.36, 3.25, 0.61, 0.94⟩,
  ⟨"Marvel Studios", 4.80, 1.27, 0.26, 0.38⟩,
  ⟨"Blumhouse Productions", 4.37, 3.45, 0.79, 0.62⟩]

/-- The if-chain of getColorByRAR in StudioPerformance. -/
def getColorByRAR (rar : ℚ) : String :=
  if rar > 7 then "#1a237e"
  else if rar > 5 then "#283593"
  else if rar > 4 then "#3949ab"
  else "#5c6bc0"

/-- A Line series configuration of the genre LineChart. -/
structure LineSpec where
  dataKey : String
  seriesName : String
  stroke : String
  deriving DecidableEq

/-- The five Line elements of GenreVisualization, in source order. -/
def genreLines : List LineSpec := [
  ⟨"horror", "Horror", "#d32f2f"⟩,
  ⟨"scifi", "Science Fiction", "#2e7d32"⟩,
  ⟨"action", "Action", "#1976d2"⟩,
  ⟨"drama", "Drama", "#7b1fa2"⟩,
  ⟨"comedy", "Comedy", "#ff9800"⟩]

/-- Dynamic field lookup `r[key]` used by the charting library to read the
value a Line with the given dataKey plots for a record. -/
def genreField (r : GenreRecord) (key : String) : Option ℚ :=
  if key = "horror" then some r.horror
  else if key = "scifi" then some r.scifi
  else if key = "action" then some r.action
  else if key = "drama" then some r.drama
  else if key = "comedy" then some r.comedy
  else none

/-- The points a Line series with the given dataKey draws: one value read
from each record of the chart data. -/
def linePoints (key : String) : List (Option ℚ) :=
  genreData.map (fun r => genreField r key)

/-- A Scatter element: its legend name parts, bound data, and fill color.
The numeric part of the legend name is kept as the looked-up value rather
than its string rendering. -/
structure ScatterSpec where
  nameGenre : String
  nameAvg : Option ℚ
  data : List BudgetPoint
  fill : String
  deriving DecidableEq

/-- `renderScatter(data, color)` reads `data[0].genre`; on an empty array the
JS would fault (undefined dereference), modelled as `none`. -/
def renderScatter (data : List BudgetPoint) (color : String) : Option ScatterSpec :=
  match data with
  | [] => none
  | d :: _ => some ⟨d.genre, genreStats d.genre, data, color⟩

/-- The box CustomTooltip renders: the genre label and the three numeric
values it formats. -/
structure TooltipBox where
  genre : String
  budget : ℚ
  revenue : ℚ
  efficiency : ℚ
  deriving DecidableEq

/-- CustomTooltip: renders a box from the first payload entry when active and
the payload is nonempty, and null otherwise. -/
def CustomTooltip (active : Bool) (payload : List BudgetPoint) : Option TooltipBox :=
  match active, payload with
  | true, d :: _ => some ⟨d.genre, d.budget, d.revenue, d.efficiency⟩
  | _, _ => none

/-- The data-bearing output of GenreVisualization: the chart data the
LineChart is bound to and its five Line series. -/
structure GenreOutput where
  chartData : List GenreRecord
  lines : List LineSpec
  deriving DecidableEq

def genreOutput : GenreOutput := ⟨genreData, genreLines⟩

/-- The data-bearing output of BudgetEfficiencyAnalysis: its four Scatter
elements, each produced by renderScatter. -/
structure BudgetOutput where
  scatters : List ScatterSpec
  deriving DecidableEq

def budgetOutput : Option BudgetOutput := do
  let s1 ← renderScatter horrorData "#d32f2f"
  let s2 ← renderScatter scifiData "#2e7d32"
  let s3 ← renderScatter actionData "#1976d2"
  let s4 ← renderScatter dramaData "#7b1fa2"
  pure ⟨[s1, s2, s3, s4]⟩

/-- One Cell per studio record: `data.map(entry => Cell fill=getColorByRAR(...))`. -/
def studioCells : List String :=
  studioData.map (fun e => getColorByRAR e.riskAdjustedReturn)

/-- One table row per studio record: `data.map(studio => tr ...)`. -/
def studioRows : List (String × ℚ × ℚ × ℚ) :=
  studioData.map (fun s => (s.studio, s.profitRatio, s.risk, s.genreDiversity))

/-- The data-bearing output of StudioPerformance: the chart data, the Bar
Cells and the table rows. -/
structure StudioOutput where
  chartData : List StudioRecord
  cells : List String
  rows : List (String × ℚ × ℚ × ℚ)
  deriving DecidableEq

def studioOutput : StudioOutput := ⟨studioData, studioCells, studioRows⟩

/-- GenreVisualization as a state transformer over an arbitrary runtime state
type: its body contains no read of and no assignment to anything outside the
component, so it returns its constant output and the state unchanged. -/
def GenreVisualization {σ : Type} (s : σ) : GenreOutput × σ := (genreOutput, s)

/-- BudgetEfficiencyAnalysis as a state transformer over an arbitrary runtime
state type; same shape as GenreVisualization. -/
def BudgetEfficiencyAnalysis {σ : Type} (s : σ) : Option BudgetOutput × σ := (budgetOutput, s)

/-- StudioPerformance as a state transformer over an arbitrary runtime state
type; same shape as GenreVisualization. -/
def StudioPerformance {σ : Type} (s : σ) : StudioOutput × σ := (studioOutput, s)

/-- The source arrays as they stand in memory during a render. -/
structure DataStore where
  horror : List BudgetPoint
  scifi : List BudgetPoint
  action : List BudgetPoint
  drama : List BudgetPoint
  studios : List StudioRecord
  deriving DecidableEq

/-- The arrays as initialised from the literals at load time. -/
def initialStore : DataStore := ⟨horrorData, scifiData, actionData, dramaData, studioData⟩

/-- The values computed from the arrays during a render pass. -/
structure RenderArtifacts where
  combined : List BudgetPoint
  cells : List String
  rows : List (String × ℚ × ℚ × ℚ)
  tooltips : List (Option TooltipBox)
  deriving DecidableEq

/-- One render pass over the arrays: the spread building combinedData, the
Cell and table-row maps, and tooltip formatting of each point. Every one of
these JS operations builds fresh values, so the store comes back unchanged. -/
def renderPass (ds : DataStore) : RenderArtifacts × DataStore :=
  let combined := ds.horror ++ ds.scifi ++ ds.action ++ ds.drama
  let cells := ds.studios.map (fun e => getColorByRAR e.riskAdjustedReturn)
  let rows := ds.studios.map (fun s => (s.studio, s.profitRatio, s.risk, s.genreDiversity))
  let tooltips := combined.map (fun d => CustomTooltip true [d])
  (⟨combined, cells, rows, tooltips⟩, ds)

/-- Rounding a value to two decimal places (round half up, as JS Math.round
of the scaled value would); used to state the implicit numerical claims. -/
def round2 (q : ℚ) : ℚ := (⌊q * 100 + 1 / 2⌋ : ℤ) / 100

/-- Arithmetic mean of the efficiency fields of a sample array. -/
def meanEfficiency (l : List BudgetPoint) : ℚ :=
  (l.map (fun p => p.efficiency)).sum / (l.length : ℚ)

/-- The tier of each color of getColorByRAR, ordered by the threshold that
produces it (7, 5, 4); any other string sits at the bottom tier. -/
def tierOfColor (c : String) : ℕ :=
  if c = "#1a237e" then 3
  else if c = "#283593" then 2
  else if c = "#3949ab" then 1
  else 0

/-- The genre of every point of the combined data is a key of genreStats. -/
theorem genreStats_isSome_of_mem (p : BudgetPoint) (hp : p ∈ combinedData) :
    (genreStats p.genre).isSome = true := by
  revert p hp
  decide

/-- The color produced by getColorByRAR sits exactly at the tier of the
threshold branch that fired. -/
theorem tierOfColor_getColorByRAR (z : ℚ) :
    tierOfColor (getColorByRAR z) =
      if z > 7 then 3 else if z > 5 then 2 else if z > 4 then 1 else 0 := by
  unfold getColorByRAR
  split_ifs <;> decide

/-- C1: each chart binds exactly N rendered data points to N input rows: the
LineChart holds all 10 yearly records and each of the five Line series draws
10 points, each of the four Scatter elements is bound to exactly the 10
records of its genre array, and the Bar receives one Cell per studio record
(6 Cells for 6 rows). -/
theorem chart_binding_counts :
    genreData.length = 10 ∧
    genreOutput.chartData = genreData ∧
    genreLines.map (fun l => (linePoints l.dataKey).length) = [10, 10, 10, 10, 10] ∧
    (renderScatter horrorData "#d32f2f").map (fun s => s.data) = some horrorData ∧
    (renderScatter scifiData "#2e7d32").map (fun s => s.data) = some scifiData ∧
    (renderScatter actionData "#1976d2").map (fun s => s.data) = some actionData ∧
    (renderScatter dramaData "#7b1fa2").map (fun s => s.data) = some dramaData ∧
    horrorData.length = 10 ∧ scifiData.length = 10 ∧
    actionData.length = 10 ∧ dramaData.length = 10 ∧
    studioCells.length = studioData.length ∧ studioData.length = 6 :=
  ⟨rfl, rfl, rfl, rfl, rfl, rfl, rfl, rfl, rfl, rfl, rfl, rfl, rfl⟩

/-- C2: the three components are stateless and deterministic: over any
runtime state type, each returns the same output on any two invocations,
leaves the state untouched, and its output is unchanged by running the other
components first. -/
theorem components_stateless (σ : Type) (s₁ s₂ : σ) :
    (GenreVisualization s₁).1 = (GenreVisualization s₂).1 ∧
    (GenreVisualization s₁).2 = s₁ ∧
    (BudgetEfficiencyAnalysis s₁).1 = (BudgetEfficiencyAnalysis s₂).1 ∧
    (BudgetEfficiencyAnalysis s₁).2 = s₁ ∧
    (StudioPerformance s₁).1 = (StudioPerformance s₂).1 ∧
    (StudioPerformance s₁).2 = s₁ ∧
    (GenreVisualization ((BudgetEfficiencyAnalysis ((StudioPerformance s₁).2)).2)).1
      = (GenreVisualization s₂).1 ∧
    (BudgetEfficiencyAnalysis ((GenreVisualization ((StudioPerformance s₁).2)).2)).1
      = (BudgetEfficiencyAnalysis s₂).1 ∧
    (StudioPerformance ((GenreVisualization ((BudgetEfficiencyAnalysis s₁).2)).2)).1
      = (StudioPerformance s₂).1 :=
  ⟨rfl, rfl, rfl, rfl, rfl, rfl, rfl, rfl, rfl⟩

/-- Witness for C2 at the concrete state type ℕ with states 0 and 1. -/
theorem components_stateless_witness :
    (GenreVisualization (0 : ℕ)).1 = (GenreVisualization (1 : ℕ)).1 ∧
    (GenreVisualization (0 : ℕ)).2 = 0 ∧
    (BudgetEfficiencyAnalysis (0 : ℕ)).1 = (BudgetEfficiencyAnalysis (1 : ℕ)).1 ∧
    (BudgetEfficiencyAnalysis (0 : ℕ)).2 = 0 ∧
    (StudioPerformance (0 : ℕ)).1 = (StudioPerformance (1 : ℕ)).1 ∧
    (StudioPerformance (0 : ℕ)).2 = 0 ∧
    (GenreVisualization ((BudgetEfficiencyAnalysis ((StudioPerformance (0 : ℕ)).2)).2)).1
      = (GenreVisualization (1 : ℕ)).1 ∧
    (BudgetEfficiencyAnalysis ((GenreVisualization ((StudioPerformance (0 : ℕ)).2)).2)).1
      = (BudgetEfficiencyAnalysis (1 : ℕ)).1 ∧
    (StudioPerformance ((GenreVisualization ((BudgetEfficiencyAnalysis (0 : ℕ)).2)).2)).1
      = (StudioPerformance (1 : ℕ)).1 :=
  components_stateless ℕ 0 1

/-- C3: no fallible operation is reached during render: renderScatter (which
reads data[0]) succeeds on each of the four genre arrays it actually
receives, the genreStats lookup succeeds on the genre of every actual data
point, CustomTooltip produces its box on every actual point, and
getColorByRAR returns one of its four colors on every input, so no render
reaches an error state. -/
theorem render_never_faults (d : BudgetPoint) (hd : d ∈ combinedData) :
    budgetOutput.isSome = true ∧
    (renderScatter horrorData "#d32f2f").isSome = true ∧
    (renderScatter scifiData "#2e7d32").isSome = true ∧
    (renderScatter actionData "#1976d2").isSome = true ∧
    (renderScatter dramaData "#7b1fa2").isSome = true ∧
    (genreStats d.genre).isSome = true ∧
    CustomTooltip true [d] = some ⟨d.genre, d.budget, d.revenue, d.efficiency⟩ ∧
    ∀ q : ℚ, getColorByRAR q = "#1a237e" ∨ getColorByRAR q = "#283593" ∨
      getColorByRAR q = "#3949ab" ∨ getColorByRAR q = "#5c6bc0" := by
  refine ⟨rfl, rfl, rfl, rfl, rfl, genreStats_isSome_of_mem d hd, rfl, ?_⟩
  intro q
  unfold getColorByRAR
  split_ifs <;> simp

/-- Witness for C3 at the first horror data point. -/
theorem render_never_faults_witness :
    budgetOutput.isSome = true ∧
    (renderScatter horrorData "#d32f2f").isSome = true ∧
    (renderScatter scifiData "#2e7d32").isSome = true ∧
    (renderScatter actionData "#1976d2").isSome = true ∧
    (renderScatter dramaData "#7b1fa2").isSome = true ∧
    (genreStats (BudgetPoint.mk 5.6 19.3 3.45 "Horror").genre).isSome = true ∧
    CustomTooltip true [BudgetPoint.mk 5.6 19.3 3.45 "Horror"] =
      some ⟨"Horror", 5.6, 19.3, 3.45⟩ ∧
    (∀ q : ℚ, getColorByRAR q = "#1a237e" ∨ getColorByRAR q = "#283593" ∨
      getColorByRAR q = "#3949ab" ∨ getColorByRAR q = "#5c6bc0") :=
  render_never_faults ⟨5.6, 19.3, 3.45, "Horror"⟩ (by simp [combinedData, horrorData])

/-- C4: the genre-popularity dataset holds exactly 10 records, one per year
from 2015 to 2024 (the field set and the numeric type of the five scores are
fixed by the GenreRecord structure). -/
theorem genre_dataset_shape :
    genreData.length = 10 ∧
    genreData.map (fun r => r.year) =
      [2015, 2016, 2017, 2018, 2019, 2020, 2021, 2022, 2023, 2024] :=
  ⟨rfl, rfl⟩

/-- C5: the genre field of every combined data point is one of the four
genre labels, and every record of each bucket array carries the label of its
own bucket (the field set is fixed by the BudgetPoint structure). -/
theorem budget_points_shape :
    (∀ p ∈ combinedData, p.genre = "Horror" ∨ p.genre = "Science Fiction" ∨
      p.genre = "Action" ∨ p.genre = "Drama") ∧
    (∀ p ∈ horrorData, p.genre = "Horror") ∧
    (∀ p ∈ scifiData, p.genre = "Science Fiction") ∧
    (∀ p ∈ actionData, p.genre = "Action") ∧
    (∀ p ∈ dramaData, p.genre = "Drama") := by
  decide

/-- Witness for C5 at the first record of each array. -/
theorem budget_points_shape_witness :
    ((BudgetPoint.mk 5.6 19.3 3.45 "Horror").genre = "Horror" ∨
      (BudgetPoint.mk 5.6 19.3 3.45 "Horror").genre = "Science Fiction" ∨
      (BudgetPoint.mk 5.6 19.3 3.45 "Horror").genre = "Action" ∨
      (BudgetPoint.mk 5.6 19.3 3.45 "Horror").genre = "Drama") ∧
    (BudgetPoint.mk 35.6 64.1 1.80 "Drama").genre = "Drama" :=
  ⟨budget_points_shape.1 ⟨5.6, 19.3, 3.45, "Horror"⟩ (by simp [combinedData, horrorData]),
   budget_points_shape.2.2.2.2 ⟨35.6, 64.1, 1.80, "Drama"⟩ (by simp [dramaData])⟩

/-- C6: the studio dataset holds 6 records with the expected studio names
and numeric metric values (the field set, the string type of studio and the
numeric type of the other four fields are fixed by the StudioRecord
structure). -/
theorem studio_dataset_shape :
    studioData.length = 6 ∧
    studioData.map (fun r => r.studio) =
      ["Paramount", "Universal Pictures", "Walt Disney Pictures", "A24",
       "Marvel Studios", "Blumhouse Productions"] ∧
    studioData.map (fun r => r.riskAdjustedReturn) = [8.31, 7.37, 6.22, 5.36, 4.80, 4.37] ∧
    studioData.map (fun r => r.profitRatio) = [3.82, 2.04, 3.41, 3.25, 1.27, 3.45] ∧
    studioData.map (fun r => r.risk) = [0.46, 0.28, 0.55, 0.61, 0.26, 0.79] ∧
    studioData.map (fun r => r.genreDiversity) = [0.91, 0.81, 0.57, 0.94, 0.38, 0.62] :=
  ⟨rfl, rfl, rfl, rfl, rfl, rfl⟩

/-- C7: a render pass (spread into combinedData, the Cell and table-row
maps, tooltip formatting) leaves every source array untouched: the store
after the pass equals the store before it, and on the literal store each
array still equals its load-time literal. -/
theorem render_pass_frame (ds : DataStore) :
    (renderPass ds).2 = ds ∧
    (renderPass ds).1.combined = ds.horror ++ ds.scifi ++ ds.action ++ ds.drama ∧
    (renderPass initialStore).2.horror = horrorData ∧
    (renderPass initialStore).2.scifi = scifiData ∧
    (renderPass initialStore).2.action = actionData ∧
    (renderPass initialStore).2.drama = dramaData ∧
    (renderPass initialStore).2.studios = studioData ∧
    (renderPass initialStore).1.cells.length = studioData.length :=
  ⟨rfl, rfl, rfl, rfl, rfl, rfl, rfl, rfl⟩

/-- Witness for C7 at the literal load-time store. -/
theorem render_pass_frame_witness :
    (renderPass initialStore).2 = initialStore ∧
    (renderPass initialStore).1.combined =
      initialStore.horror ++ initialStore.scifi ++ initialStore.action ++ initialStore.drama ∧
    (renderPass initialStore).2.horror = horrorData ∧
    (renderPass initialStore).2.scifi = scifiData ∧
    (renderPass initialStore).2.action = actionData ∧
    (renderPass initialStore).2.drama = dramaData ∧
    (renderPass initialStore).2.studios = studioData ∧
    (renderPass initialStore).1.cells.length = studioData.length :=
  render_pass_frame initialStore

/-- C10: getColorByRAR is total — every input maps to one of the four color
strings — and monotone: a larger input gets a color whose threshold tier is
at least that of a smaller input. -/
theorem getColorByRAR_total_monotone (x y : ℚ) (h : y ≤ x) :
    (getColorByRAR x = "#1a237e" ∨ getColorByRAR x = "#283593" ∨
      getColorByRAR x = "#3949ab" ∨ getColorByRAR x = "#5c6bc0") ∧
    tierOfColor (getColorByRAR y) ≤ tierOfColor (getColorByRAR x) := by
  constructor
  · unfold getColorByRAR
    split_ifs <;> simp
  · rw [tierOfColor_getColorByRAR, tierOfColor_getColorByRAR]
    split_ifs <;> first | decide | (exfalso; linarith)

/-- C8 fails as stated: the fifth horror record stores efficiency 3.49 while
its revenue divided by its budget, rounded to two decimals, is 3.50. -/
theorem efficiency_round_counterexample :
    (⟨10.1, 35.3, 3.49, "Horror"⟩ : BudgetPoint) ∈ combinedData ∧
    round2 ((35.3 : ℚ) / 10.1) = 3.50 ∧
    (⟨10.1, 35.3, 3.49, "Horror"⟩ : BudgetPoint).efficiency ≠ round2 ((35.3 : ℚ) / 10.1) := by
  refine ⟨by simp [combinedData, horrorData], ?_, ?_⟩ <;> norm_num [round2]

/-- C8 amended: every record of the four budget arrays except the horror
record with budget 10.1 and revenue 35.3 stores efficiency equal to revenue
divided by budget rounded to two decimal places; that one record stores
3.49 where the rounded quotient is 3.50. -/
theorem efficiency_round_amended (p : BudgetPoint) (hp : p ∈ combinedData) :
    p.efficiency = round2 (p.revenue / p.budget) ∨
    (p.budget = 10.1 ∧ p.revenue = 35.3 ∧ p.efficiency = 3.49) := by
  simp only [combinedData, horrorData, scifiData, actionData, dramaData,
    List.cons_append, List.nil_append] at hp
  fin_cases hp <;> first | (right; exact ⟨rfl, rfl, rfl⟩) | (left; norm_num [round2])

/-- Witness for the amended C8 at the first horror record. -/
theorem efficiency_round_amended_witness :
    (⟨5.6, 19.3, 3.45, "Horror"⟩ : BudgetPoint).efficiency =
      round2 ((⟨5.6, 19.3, 3.45, "Horror"⟩ : BudgetPoint).revenue /
        (⟨5.6, 19.3, 3.45, "Horror"⟩ : BudgetPoint).budget) ∨
    ((⟨5.6, 19.3, 3.45, "Horror"⟩ : BudgetPoint).budget = 10.1 ∧
      (⟨5.6, 19.3, 3.45, "Horror"⟩ : BudgetPoint).revenue = 35.3 ∧
      (⟨5.6, 19.3, 3.45, "Horror"⟩ : BudgetPoint).efficiency = 3.49) :=
  efficiency_round_amended ⟨5.6, 19.3, 3.45, "Horror"⟩ (by simp [combinedData, horrorData])

/-- C9 fails as stated: genreStats stores 2.46 for Action, but the mean of
the ten action efficiencies is 2.431, which rounds to 2.43. -/
theorem genre_stats_counterexample :
    genreStats "Action" = some 2.46 ∧
    round2 (meanEfficiency actionData) = 2.43 ∧
    genreStats "Action" ≠ some (round2 (meanEfficiency actionData)) := by
  have ha : round2 (meanEfficiency actionData) = 2.43 := by
    norm_num [round2, meanEfficiency, actionData]
  refine ⟨rfl, ha, ?_⟩
  intro hc
  rw [show genreStats "Action" = some 2.46 from rfl, ha] at hc
  have h2 := Option.some.inj hc
  norm_num at h2

/-- C9 amended: only the Drama entry of genreStats equals the mean of its
array's ten efficiency values rounded to two decimals (1.87); the Horror,
Science Fiction and Action entries store 3.29, 1.60 and 2.46 while the
rounded means are 3.30, 1.59 and 2.43 respectively. -/
theorem genre_stats_amended :
    genreStats "Drama" = some (round2 (meanEfficiency dramaData)) ∧
    round2 (meanEfficiency dramaData) = 1.87 ∧
    genreStats "Horror" = some 3.29 ∧ round2 (meanEfficiency horrorData) = 3.30 ∧
    genreStats "Science Fiction" = some 1.60 ∧ round2 (meanEfficiency scifiData) = 1.59 ∧
    genreStats "Action" = some 2.46 ∧ round2 (meanEfficiency actionData) = 2.43 ∧
    (3.29 : ℚ) ≠ 3.30 ∧ (1.60 : ℚ) ≠ 1.59 ∧ (2.46 : ℚ) ≠ 2.43 := by
  have hh : round2 (meanEfficiency horrorData) = 3.30 := by
    norm_num [round2, meanEfficiency, horrorData]
  have hs : round2 (meanEfficiency scifiData) = 1.59 := by
    norm_num [round2, meanEfficiency, scifiData]
  have ha : round2 (meanEfficiency actionData) = 2.43 := by
    norm_num [round2, meanEfficiency, actionData]
  have hd : round2 (meanEfficiency dramaData) = 1.87 := by
    norm_num [round2, meanEfficiency, dramaData]
  exact ⟨by rw [hd]; exact rfl, hd, rfl, hh, rfl, hs, rfl, ha,
    by norm_num, by norm_num, by norm_num⟩

/-- Witness for C10 at x = 8, y = 4.5. -/
theorem getColorByRAR_total_monotone_witness :
    (getColorByRAR 8 = "#1a237e" ∨ getColorByRAR 8 = "#283593" ∨
      getColorByRAR 8 = "#3949ab" ∨ getColorByRAR 8 = "#5c6bc0") ∧
    tierOfColor (getColorByRAR 4.5) ≤ tierOfColor (getColorByRAR 8) :=
  getColorByRAR_total_monotone 8 4.5 (by norm_num)

end MovieViz
